import Mathlib

/- Shallow embedding of the bus-provisioning core of src/i2c-gpio-custom.c,
   in its LINUX_VERSION_CODE >= KERNEL_VERSION(4, 15, 0) configuration (the
   pin-resolver / lookup-table model that the specification describes).

   External collaborators are modelled by an explicit environment `Env`:
   gpiolib's gpio_to_chip (the Pin Resolver), kmalloc, platform_device_alloc,
   platform_device_add_data and platform_device_add.  The driver's mutable
   globals (the four static gpiod lookup tables, the `devices` array, the
   `nr_devices` counter) together with the externally held registries (the
   set of installed lookup tables, the list of registered platform devices)
   are modelled by the state record `St`.  Every call the driver makes into
   the kernel that acquires or releases a resource, and every printk, is
   additionally recorded in an `Action` trace, so that ordering properties
   (LIFO rollback, idempotence of teardown) can be stated about the calls
   themselves.  kmalloc returning NULL followed by the unchecked use of the
   pointer at line 183 of the source is modelled by the distinguished
   outcome `CRes.crash`. -/

namespace I2CGpioCustom

/-- BUS_PARAM_ID from the source's parameter-index defines. -/
abbrev BUS_PARAM_ID : Nat := 0

/-- BUS_PARAM_SDA, index of the data-line number in a tuple. -/
abbrev BUS_PARAM_SDA : Nat := 1

/-- BUS_PARAM_SCL, index of the clock-line number in a tuple. -/
abbrev BUS_PARAM_SCL : Nat := 2

/-- BUS_PARAM_UDELAY, index of the signal toggle delay. -/
abbrev BUS_PARAM_UDELAY : Nat := 3

/-- BUS_PARAM_TIMEOUT, index of the clock-stretch timeout. -/
abbrev BUS_PARAM_TIMEOUT : Nat := 4

/-- BUS_PARAM_SDA_OD, index of the SDA open-drain flag. -/
abbrev BUS_PARAM_SDA_OD : Nat := 5

/-- BUS_PARAM_SCL_OD, index of the SCL open-drain flag. -/
abbrev BUS_PARAM_SCL_OD : Nat := 6

/-- BUS_PARAM_SCL_OO, index of the SCL output-only flag. -/
abbrev BUS_PARAM_SCL_OO : Nat := 7

/-- BUS_PARAM_REQUIRED: minimum number of supplied fields for a configured bus. -/
abbrev BUS_PARAM_REQUIRED : Nat := 3

/-- BUS_COUNT_MAX: the fixed number of bus slots. -/
abbrev BUS_COUNT_MAX : Nat := 4

/-- BUS_NAME_MAX: bound on the formatted identity string (buffer is BUS_NAME_MAX+1). -/
abbrev BUS_NAME_MAX : Nat := 32

/-- errno EINVAL; the driver returns its negation. -/
abbrev EINVAL : Int := 22

/-- errno ENOMEM; the driver returns its negation. -/
abbrev ENOMEM : Int := 12

/-- errno ENODEV; the driver returns its negation. -/
abbrev ENODEV : Int := 19

/-- A gpio_chip as far as the driver reads it: its label and its base line number. -/
structure Chip where
  label : String
  base : Nat
deriving DecidableEq

/-- Which of the two lines a resolver-failure log message names. -/
inductive Role where
  | sda
  | scl
deriving DecidableEq

/-- One gpiod_lookup entry of a lookup table: the owning chip's label and the
line's offset within the chip, as written at lines 170-171 / 179-180. -/
structure LookupEntry where
  chip_label : Option String
  chip_hwnum : Nat
deriving DecidableEq

/-- Contents of one static gpiod_lookup_table: the two role entries and the
dev_id pointer (none models NULL). -/
structure TableSt where
  sda : LookupEntry
  scl : LookupEntry
  dev_id : Option String
deriving DecidableEq

/-- The i2c_gpio_platform_data parameter block built at lines 206-210. -/
structure PData where
  udelay : Nat
  timeout : Nat
  sda_is_open_drain : Bool
  scl_is_open_drain : Bool
  scl_is_output_only : Bool
deriving DecidableEq

/-- A platform device as the driver builds it.  `slot` models the identity of
the allocation site (one device is built per bus slot), `busId` is the id
passed to platform_device_alloc. -/
structure Dev where
  slot : Nat
  busId : Nat
  pdata : PData
deriving DecidableEq

/-- The externally visible kernel calls and log lines the driver issues, in
program order. -/
inductive Action where
  | logVersion
  | logInsufficient (slot : Nat)
  | logBadLine (role : Role) (line : Nat) (slot : Nat)
  | logIdTooLarge (slot : Nat)
  | logNoBuses
  | addTable (slot : Nat)
  | removeTable (slot : Nat)
  | freeDevId (slot : Nat)
  | putDevice (d : Dev)
  | addDevice (d : Dev)
  | delDevice (d : Dev)
deriving DecidableEq

/-- Result of a C function returning int, with a distinguished outcome for the
NULL dereference the unchecked kmalloc can cause. -/
inductive CRes where
  | ret (e : Int)
  | crash
deriving DecidableEq

/-- The external collaborators.  `gpio_to_chip` is the Pin Resolver; the other
fields give the outcome of each fallible kernel allocation/registration for
the given bus slot (the driver performs each such call at most once per
slot). -/
structure Env where
  gpio_to_chip : Nat → Option Chip
  kmalloc_ok : Nat → Bool
  pdev_alloc_ok : Nat → Bool
  add_data_err : Nat → Int
  add_err : Nat → Int

/-- The driver's global state: the four static lookup tables (indexed by bus
slot), the list of lookup tables currently installed in gpiolib (in
installation order, by slot index), the `devices` array (index `k` holds the
pointer written by `devices[nr_devices++] = pdev`, none models NULL), the
`nr_devices` counter, and the platform devices currently registered with the
device registry (in registration order). -/
structure St where
  tables : Nat → TableSt
  installed : List Nat
  devices : Nat → Option Dev
  nr_devices : Nat
  registered : List Dev

/-- The module parameters: per slot, the supplied integers (bus0..bus3) and the
supplied count (bus_nump).  Built by `mkConfig` from the supplied lists the
way module_param_array fills the static, zero-initialised arrays. -/
structure Config where
  bus : Nat → Nat → Nat
  nump : Nat → Nat

/-- Builds the parameter state from the four supplied argument lists: a static
array cell that was not supplied keeps its static initial value 0, and
bus_nump records how many entries were supplied. -/
def mkConfig (b0 b1 b2 b3 : List Nat) : Config :=
  { bus := fun s i => ([b0, b1, b2, b3].getD s []).getD i 0
    nump := fun s => ([b0, b1, b2, b3].getD s []).length }

/-- A static gpiod_lookup_table as initialised by GPIOD_TABLE_TEMPLATE:
dev_id NULL, both entries with NULL chip label and hwnum 0. -/
def initTable : TableSt :=
  { sda := { chip_label := none, chip_hwnum := 0 }
    scl := { chip_label := none, chip_hwnum := 0 }
    dev_id := none }

/-- The driver's global state at module load. -/
def initSt : St :=
  { tables := fun _ => initTable
    installed := []
    devices := fun _ => none
    nr_devices := 0
    registered := [] }

/-- The parameter block assembled at lines 206-210 of the source. -/
def pdataOf (params : Nat → Nat) : PData :=
  { udelay := params BUS_PARAM_UDELAY
    timeout := params BUS_PARAM_TIMEOUT
    sda_is_open_drain := params BUS_PARAM_SDA_OD != 0
    scl_is_open_drain := params BUS_PARAM_SCL_OD != 0
    scl_is_output_only := params BUS_PARAM_SCL_OO != 0 }

/-- Writing one role entry of a static lookup table, as at lines 170-171 and
179-180. -/
def setEntry (label : String) (hw : Nat) : LookupEntry :=
  { chip_label := some label, chip_hwnum := hw }

/-- In-place update of the static table of slot `id`. -/
def updTable (st : St) (id : Nat) (f : TableSt → TableSt) : St :=
  { st with tables := fun j => if j = id then f (st.tables id) else st.tables j }

/-- i2c_gpio_custom_add_one (lines 141-236 of the source, >= 4.15 paths).
Returns the C return value, the new global state, and the trace of kernel
calls/log lines made.  The unchecked kmalloc at line 182: if the allocation
fails the source passes the NULL pointer straight to snprintf, modelled as
`CRes.crash`.  snprintf's return value (the untruncated formatted length) is
modelled as the length of the formatted identity string. -/
def i2c_gpio_custom_add_one (env : Env) (id : Nat) (params : Nat → Nat) (nump : Nat)
    (st : St) : CRes × St × List Action :=
  if nump = 0 then
    (CRes.ret 0, st, [])
  else if nump < BUS_PARAM_REQUIRED then
    (CRes.ret (-EINVAL), st, [Action.logInsufficient id])
  else
    match env.gpio_to_chip (params BUS_PARAM_SDA) with
    | none =>
      (CRes.ret (-EINVAL), st, [Action.logBadLine Role.sda (params BUS_PARAM_SDA) id])
    | some chip_sda =>
      let st1 : St := updTable st id (fun t =>
        { t with sda := setEntry chip_sda.label (params BUS_PARAM_SDA - chip_sda.base) })
      match env.gpio_to_chip (params BUS_PARAM_SCL) with
      | none =>
        (CRes.ret (-EINVAL), st1, [Action.logBadLine Role.scl (params BUS_PARAM_SCL) id])
      | some chip_scl =>
        let st2 : St := updTable st1 id (fun t =>
          { t with scl := setEntry chip_scl.label (params BUS_PARAM_SCL - chip_scl.base) })
        if env.kmalloc_ok id then
          let dev_id : String := "i2c-gpio." ++ Nat.repr (params BUS_PARAM_ID)
          if BUS_NAME_MAX + 1 ≤ dev_id.length then
            (CRes.ret (-EINVAL), st2, [Action.logIdTooLarge id, Action.freeDevId id])
          else
            let st3 : St := updTable st2 id (fun t => { t with dev_id := some dev_id })
            let st4 : St := { st3 with installed := st3.installed ++ [id] }
            if env.pdev_alloc_ok id then
              let pdev : Dev := { slot := id, busId := params BUS_PARAM_ID,
                                  pdata := pdataOf params }
              if env.add_data_err id ≠ 0 then
                (CRes.ret (env.add_data_err id),
                 { st4 with installed := st4.installed.filter (fun j => j != id) },
                 [Action.addTable id, Action.putDevice pdev, Action.removeTable id,
                  Action.freeDevId id])
              else if env.add_err id ≠ 0 then
                (CRes.ret (env.add_err id),
                 { st4 with installed := st4.installed.filter (fun j => j != id) },
                 [Action.addTable id, Action.putDevice pdev, Action.removeTable id,
                  Action.freeDevId id])
              else
                (CRes.ret 0,
                 { st4 with
                    devices := fun k => if k = st4.nr_devices then some pdev
                      else st4.devices k
                    nr_devices := st4.nr_devices + 1
                    registered := st4.registered ++ [pdev] },
                 [Action.addTable id, Action.addDevice pdev])
            else
              (CRes.ret (-ENOMEM),
               { st4 with installed := st4.installed.filter (fun j => j != id) },
               [Action.addTable id, Action.removeTable id, Action.freeDevId id])
        else
          (CRes.crash, st2, [])

/-- First loop of i2c_gpio_custom_cleanup (lines 127-131): for each index
below nr_devices, a non-NULL devices entry is deleted from the registry and
released.  platform_device_del removes that exact instance from the registered
list. -/
def delDevices (f : Nat → Option Dev) : List Nat → List Dev → List Dev × List Action
  | [], reg => (reg, [])
  | i :: rest, reg =>
    match f i with
    | some d =>
      let q := delDevices f rest (reg.erase d)
      (q.1, Action.delDevice d :: Action.putDevice d :: q.2)
    | none => delDevices f rest reg

/-- Second loop of i2c_gpio_custom_cleanup (lines 134-137): for each index
below nr_devices, gpiod_remove_lookup_table(gpiod_tables[i]) is called
unconditionally (it removes the table from the installed set when present)
followed by kfree(gpiod_tables[i]->dev_id) (a no-op call when the pointer is
NULL, hence no recorded action in that case; the field itself is not cleared
by kfree). -/
def removeTables (tabs : Nat → TableSt) : List Nat → List Nat → List Nat × List Action
  | [], inst => (inst, [])
  | i :: rest, inst =>
    let q := removeTables tabs rest (inst.filter (fun j => j != i))
    (q.1, Action.removeTable i ::
      ((match (tabs i).dev_id with
        | some _ => [Action.freeDevId i]
        | none => []) ++ q.2))

/-- i2c_gpio_custom_cleanup (lines 123-139): both loops run over indices
0 ≤ i < nr_devices.  Note that it neither clears the devices array entries or
the tables' dev_id fields nor resets nr_devices. -/
def i2c_gpio_custom_cleanup (st : St) : St × List Action :=
  let q1 := delDevices st.devices (List.range st.nr_devices) st.registered
  let q2 := removeTables st.tables (List.range st.nr_devices) st.installed
  ({ st with registered := q1.1, installed := q2.1 }, q1.2 ++ q2.2)

/-- The chain of add_one calls in i2c_gpio_custom_probe (lines 244-258):
each slot in order, stopping at the first nonzero return (or crash). -/
def probeLoop (env : Env) (cfg : Config) : List Nat → St → CRes × St × List Action
  | [], st => (CRes.ret 0, st, [])
  | i :: rest, st =>
    let p := i2c_gpio_custom_add_one env i (cfg.bus i) (cfg.nump i) st
    if p.1 = CRes.ret 0 then
      let q := probeLoop env cfg rest p.2.1
      (q.1, q.2.1, p.2.2 ++ q.2.2)
    else p

/-- i2c_gpio_custom_probe (lines 238-271): version banner, the four add_one
calls with goto err on the first failure, the no-devices check, and cleanup on
every error path. -/
def i2c_gpio_custom_probe (env : Env) (cfg : Config) (st : St) : CRes × St × List Action :=
  let p := probeLoop env cfg [0, 1, 2, 3] st
  match p.1 with
  | CRes.crash => (CRes.crash, p.2.1, Action.logVersion :: p.2.2)
  | CRes.ret e =>
    if e = 0 then
      if p.2.1.nr_devices = 0 then
        let c := i2c_gpio_custom_cleanup p.2.1
        (CRes.ret (-ENODEV), c.1,
         Action.logVersion :: (p.2.2 ++ [Action.logNoBuses] ++ c.2))
      else (CRes.ret 0, p.2.1, Action.logVersion :: p.2.2)
    else
      let c := i2c_gpio_custom_cleanup p.2.1
      (CRes.ret e, c.1, Action.logVersion :: (p.2.2 ++ c.2))

/-- The global state after the first `n` add_one calls of a probe run that
starts from the initial state. -/
def stAt (env : Env) (cfg : Config) : Nat → St
  | 0 => initSt
  | n + 1 =>
    (i2c_gpio_custom_add_one env n (cfg.bus n) (cfg.nump n) (stAt env cfg n)).2.1

/-- The return value of the (n+1)-st add_one call of a probe run that starts
from the initial state. -/
def resAt (env : Env) (cfg : Config) (n : Nat) : CRes :=
  (i2c_gpio_custom_add_one env n (cfg.bus n) (cfg.nump n) (stAt env cfg n)).1

/-- The bookkeeping invariant of the source: the registered platform devices
are exactly the entries devices[0], ..., devices[nr_devices-1], in order. -/
def Inv (st : St) : Prop :=
  st.registered = (List.range st.nr_devices).filterMap st.devices

/-- A gpio chip for concrete runs: owns lines 0-31. -/
def chip0 : Chip := { label := "gpiochip0", base := 0 }

/-- Environment in which every kernel service succeeds and lines 0-31 resolve. -/
def envOk : Env :=
  { gpio_to_chip := fun n => if n < 32 then some chip0 else none
    kmalloc_ok := fun _ => true
    pdev_alloc_ok := fun _ => true
    add_data_err := fun _ => 0
    add_err := fun _ => 0 }

/-- Environment in which only line 5 resolves. -/
def envSclBad : Env :=
  { envOk with gpio_to_chip := fun n => if n = 5 then some chip0 else none }

/-- Environment in which kmalloc fails. -/
def envNoMem : Env := { envOk with kmalloc_ok := fun _ => false }

/-- Environment in which attaching the parameter block fails with -ENOMEM. -/
def envAttachFail : Env := { envOk with add_data_err := fun _ => -12 }

/-- Scenario A of the spec: bus0 = id 0, data 5, clock 6; other slots empty. -/
def cfgA : Config := mkConfig [0, 5, 6] [] [] []

/-- bus0 unset, bus1 = id 1, data 5, clock 6: a skipped slot before a
provisioned one. -/
def cfgGap : Config := mkConfig [] [1, 5, 6] [] []

/-- bus0 unset, bus1 = id 7, data 5, clock 6. -/
def cfgGap2 : Config := mkConfig [] [7, 5, 6] [] []

/-- bus0 = id 0, data 99 (unresolvable), clock 6. -/
def cfgBadLine : Config := mkConfig [0, 99, 6] [] [] []

/-- A tuple with no supplied fields is a skipped slot: return 0, no state
change, no kernel call. -/
lemma add_one_skip (env : Env) (id : Nat) (params : Nat → Nat) (st : St) :
    i2c_gpio_custom_add_one env id params 0 st = (CRes.ret 0, st, []) := rfl

/-- filterMap is determined by the function's values on the list. -/
lemma filterMap_eq_on {α β : Type} (f g : α → Option β) :
    ∀ l : List α, (∀ a, a ∈ l → f a = g a) → l.filterMap f = l.filterMap g := by
  intro l
  induction l with
  | nil => intro _; rfl
  | cons a t ih =>
    intro h
    rw [List.filterMap_cons, List.filterMap_cons, h a (List.mem_cons_self a t),
      ih (fun x hx => h x (List.mem_cons_of_mem a hx))]

/-- Appending the freshly registered device preserves the bookkeeping
invariant across `devices[nr_devices++] = pdev`. -/
lemma Inv_push (st : St) (d : Dev) (h : Inv st) :
    st.registered ++ [d] =
      (List.range (st.nr_devices + 1)).filterMap
        (fun k => if k = st.nr_devices then some d else st.devices k) := by
  rw [List.range_succ, List.filterMap_append, h]
  have h1 : (List.range st.nr_devices).filterMap
      (fun k => if k = st.nr_devices then some d else st.devices k)
      = (List.range st.nr_devices).filterMap st.devices := by
    apply filterMap_eq_on
    intro a ha
    have hne : a ≠ st.nr_devices := Nat.ne_of_lt (List.mem_range.mp ha)
    simp [hne]
  rw [h1]
  simp

/-- Every branch of add_one preserves the bookkeeping invariant. -/
lemma add_one_preserves_Inv (env : Env) (id : Nat) (params : Nat → Nat) (nump : Nat)
    (st : St) (h : Inv st) :
    Inv (i2c_gpio_custom_add_one env id params nump st).2.1 := by
  unfold i2c_gpio_custom_add_one
  dsimp only
  repeat' split
  all_goals first
  | exact h
  | exact Inv_push _ _ h

/-- The device-deletion loop of cleanup empties a registry that satisfies the
invariant: it erases, in order, exactly the non-NULL devices entries. -/
lemma delDevices_filterMap (f : Nat → Option Dev) :
    ∀ is : List Nat, (delDevices f is (is.filterMap f)).1 = [] := by
  intro is
  induction is with
  | nil => rfl
  | cons i rest ih =>
    cases hfi : f i with
    | none => simpa [delDevices, hfi, List.filterMap_cons] using ih
    | some d => simpa [delDevices, hfi, List.filterMap_cons] using ih

/-- Under the bookkeeping invariant, cleanup leaves no registered device. -/
lemma cleanup_registered (st : St) (h : Inv st) :
    ((i2c_gpio_custom_cleanup st).1).registered = [] := by
  show (delDevices st.devices (List.range st.nr_devices) st.registered).1 = []
  rw [h]
  exact delDevices_filterMap st.devices (List.range st.nr_devices)

/-- With a zero device counter, cleanup is the identity and makes no call. -/
lemma cleanup_nr_zero (st : St) (h : st.nr_devices = 0) :
    i2c_gpio_custom_cleanup st = (st, []) := by
  have h0 : List.range st.nr_devices = [] := by rw [h]; rfl
  unfold i2c_gpio_custom_cleanup
  rw [h0]
  rfl

/-- The initial state satisfies the bookkeeping invariant. -/
lemma Inv_initSt : Inv initSt := rfl

/-- A fully successful add_one on a three-field tuple: the return value, the
effect on the externally visible state, and the calls made. -/
lemma add_one_success (env : Env) (id a b c : Nat) (st : St) (c1 c2 : Chip)
    (hsda : env.gpio_to_chip b = some c1) (hscl : env.gpio_to_chip c = some c2)
    (hk : env.kmalloc_ok id = true) (hpa : env.pdev_alloc_ok id = true)
    (hd : env.add_data_err id = 0) (ha : env.add_err id = 0)
    (hlen : ¬ (BUS_NAME_MAX + 1 ≤ ("i2c-gpio." ++ Nat.repr a).length)) :
    (i2c_gpio_custom_add_one env id (fun i => [a, b, c].getD i 0) 3 st).1 = CRes.ret 0 ∧
    (i2c_gpio_custom_add_one env id (fun i => [a, b, c].getD i 0) 3 st).2.1.installed =
      st.installed ++ [id] ∧
    (i2c_gpio_custom_add_one env id (fun i => [a, b, c].getD i 0) 3 st).2.1.nr_devices =
      st.nr_devices + 1 ∧
    (i2c_gpio_custom_add_one env id (fun i => [a, b, c].getD i 0) 3 st).2.1.registered =
      st.registered ++ [{ slot := id, busId := a, pdata :=
        { udelay := 0, timeout := 0, sda_is_open_drain := false,
          scl_is_open_drain := false, scl_is_output_only := false } }] ∧
    (i2c_gpio_custom_add_one env id (fun i => [a, b, c].getD i 0) 3 st).2.2 =
      [Action.addTable id, Action.addDevice { slot := id, busId := a, pdata :=
        { udelay := 0, timeout := 0, sda_is_open_drain := false,
          scl_is_open_drain := false, scl_is_output_only := false } }] := by
  unfold i2c_gpio_custom_add_one
  dsimp only
  repeat' split
  all_goals first
  | exact ⟨rfl, rfl, rfl, rfl, rfl⟩
  | (simp_all; try omega)

/-- An element is never a member of the list filtered by "not equal to it";
this is the shape of the installed list after a rollback removed the slot's
table. -/
lemma not_mem_filter_ne (l : List Nat) (a : Nat) : a ∉ l.filter (fun j => j != a) := by
  intro h
  have h2 := List.of_mem_filter h
  simp at h2

/-- Claim C5: a tuple with 0 supplied fields is skipped with no error and
nothing installed; with 1 or 2 supplied fields add_one returns -EINVAL
(InsufficientFields) with a result that does not depend on the Pin Resolver
in any way (no resolver call is made); with exactly 3 supplied fields (id,
data line, clock line), given resolvable lines and successful kernel
services, provisioning succeeds and the registered device carries udelay 0,
timeout 0 and all three flags false. -/
theorem add_one_field_count_spec :
    (∀ env id params st,
      i2c_gpio_custom_add_one env id params 0 st = (CRes.ret 0, st, [])) ∧
    (∀ env id params st n, n = 1 ∨ n = 2 →
      i2c_gpio_custom_add_one env id params n st =
        (CRes.ret (-EINVAL), st, [Action.logInsufficient id])) ∧
    (∀ env id a b c st c1 c2,
      env.gpio_to_chip b = some c1 → env.gpio_to_chip c = some c2 →
      env.kmalloc_ok id = true → env.pdev_alloc_ok id = true →
      env.add_data_err id = 0 → env.add_err id = 0 →
      ¬ (BUS_NAME_MAX + 1 ≤ ("i2c-gpio." ++ Nat.repr a).length) →
      (i2c_gpio_custom_add_one env id (fun i => [a, b, c].getD i 0) 3 st).1 =
        CRes.ret 0 ∧
      (i2c_gpio_custom_add_one env id (fun i => [a, b, c].getD i 0) 3 st).2.1.registered
        = st.registered ++ [{ slot := id, busId := a, pdata :=
          { udelay := 0, timeout := 0, sda_is_open_drain := false,
            scl_is_open_drain := false, scl_is_output_only := false } }]) := by
  refine ⟨fun env id params st => add_one_skip env id params st, ?_, ?_⟩
  · rintro env id params st n (rfl | rfl) <;> rfl
  · intro env id a b c st c1 c2 hsda hscl hk hpa hd ha hlen
    have h := add_one_success env id a b c st c1 c2 hsda hscl hk hpa hd ha hlen
    exact ⟨h.1, h.2.2.2.1⟩

/-- Witness for C5: in the all-succeeding environment, the tuple 9,5,6 with
exactly three fields provisions a device with id 9 and defaulted parameters. -/
theorem add_one_field_count_spec_witness :
    (i2c_gpio_custom_add_one envOk 0 (fun i => [9, 5, 6].getD i 0) 3 initSt).1 =
      CRes.ret 0 ∧
    (i2c_gpio_custom_add_one envOk 0 (fun i => [9, 5, 6].getD i 0) 3 initSt).2.1.registered
      = [{ slot := 0, busId := 9, pdata :=
        { udelay := 0, timeout := 0, sda_is_open_drain := false,
          scl_is_open_drain := false, scl_is_output_only := false } }] :=
  add_one_field_count_spec.2.2 envOk 0 9 5 6 initSt chip0 chip0
    (by decide) (by decide) rfl rfl rfl rfl (by decide)

/-- Claim C1: if, after the binding table has been installed, attaching the
parameter block or adding the device to the registry fails, then add_one
releases the constructed device first, uninstalls the binding table next and
releases the identity string last (the trace records put, remove, free in
that order, mirroring acquisition in reverse), returns the failing error
unchanged, and afterwards no binding table for the slot remains installed
and the device bookkeeping is untouched. -/
theorem add_one_late_failure_rollback (env : Env) (slot : Nat) (params : Nat → Nat)
    (nump : Nat) (st : St) (e : Int) (c1 c2 : Chip)
    (hn : BUS_PARAM_REQUIRED ≤ nump)
    (hsda : env.gpio_to_chip (params BUS_PARAM_SDA) = some c1)
    (hscl : env.gpio_to_chip (params BUS_PARAM_SCL) = some c2)
    (hk : env.kmalloc_ok slot = true)
    (hlen : ¬ (BUS_NAME_MAX + 1 ≤ ("i2c-gpio." ++ Nat.repr (params BUS_PARAM_ID)).length))
    (hpa : env.pdev_alloc_ok slot = true)
    (hfail : (env.add_data_err slot = e ∧ e ≠ 0) ∨
      (env.add_data_err slot = 0 ∧ env.add_err slot = e ∧ e ≠ 0)) :
    (i2c_gpio_custom_add_one env slot params nump st).1 = CRes.ret e ∧
    (i2c_gpio_custom_add_one env slot params nump st).2.2 =
      [Action.addTable slot,
       Action.putDevice { slot := slot, busId := params BUS_PARAM_ID,
                          pdata := pdataOf params },
       Action.removeTable slot, Action.freeDevId slot] ∧
    slot ∉ (i2c_gpio_custom_add_one env slot params nump st).2.1.installed ∧
    (i2c_gpio_custom_add_one env slot params nump st).2.1.registered = st.registered ∧
    (i2c_gpio_custom_add_one env slot params nump st).2.1.devices = st.devices ∧
    (i2c_gpio_custom_add_one env slot params nump st).2.1.nr_devices = st.nr_devices := by
  have hn3 : 3 ≤ nump := hn
  rcases hfail with ⟨hd, he⟩ | ⟨hd0, ha2, he⟩
  · unfold i2c_gpio_custom_add_one
    dsimp only
    repeat' split
    all_goals first
    | (refine ⟨?_, rfl, ?_, rfl, rfl, rfl⟩ <;> first | exact not_mem_filter_ne _ _ | rw [hd])
    | (simp_all [BUS_PARAM_REQUIRED]; try omega)
  · unfold i2c_gpio_custom_add_one
    dsimp only
    repeat' split
    all_goals first
    | (refine ⟨?_, rfl, ?_, rfl, rfl, rfl⟩ <;> first | exact not_mem_filter_ne _ _ | rw [ha2])
    | (simp_all [BUS_PARAM_REQUIRED]; try omega)

/-- Witness for C1: with the parameter-block attach failing with -ENOMEM on
the tuple 0,5,6, add_one returns -12 and the rollback trace is put device,
remove table, free identity, in that order. -/
theorem add_one_late_failure_rollback_witness :
    (i2c_gpio_custom_add_one envAttachFail 0 (fun i => [0, 5, 6].getD i 0) 3 initSt).1 =
      CRes.ret (-12) ∧
    (i2c_gpio_custom_add_one envAttachFail 0 (fun i => [0, 5, 6].getD i 0) 3 initSt).2.2 =
      [Action.addTable 0,
       Action.putDevice { slot := 0, busId := 0,
                          pdata := pdataOf (fun i => [0, 5, 6].getD i 0) },
       Action.removeTable 0, Action.freeDevId 0] ∧
    0 ∉ (i2c_gpio_custom_add_one envAttachFail 0 (fun i => [0, 5, 6].getD i 0) 3
      initSt).2.1.installed :=
  have h := add_one_late_failure_rollback envAttachFail 0 (fun i => [0, 5, 6].getD i 0)
    3 initSt (-12) chip0 chip0 (by decide) (by decide) (by decide) rfl (by decide)
    rfl (Or.inl ⟨rfl, by decide⟩)
  ⟨h.1, h.2.1, h.2.2.1⟩

/-- Claim C8: when the formatted identity string for a bus id would exceed
the BUS_NAME_MAX bound, add_one returns -EINVAL (IdentityTooLarge) instead
of truncating, the just-allocated identity buffer is released (freeDevId is
the only call after the diagnostic), no table is installed and no device
state changes; the table's dev_id field is never set.  (For ids expressible
in the C unsigned type the formatted length never exceeds the bound, so this
guard is exercised only by wider ids; the theorem characterises the branch as
written.) -/
theorem identity_too_large_path (env : Env) (slot : Nat) (params : Nat → Nat)
    (nump : Nat) (st : St) (c1 c2 : Chip)
    (hn : BUS_PARAM_REQUIRED ≤ nump)
    (hsda : env.gpio_to_chip (params BUS_PARAM_SDA) = some c1)
    (hscl : env.gpio_to_chip (params BUS_PARAM_SCL) = some c2)
    (hk : env.kmalloc_ok slot = true)
    (hlen : BUS_NAME_MAX + 1 ≤ ("i2c-gpio." ++ Nat.repr (params BUS_PARAM_ID)).length) :
    (i2c_gpio_custom_add_one env slot params nump st).1 = CRes.ret (-EINVAL) ∧
    (i2c_gpio_custom_add_one env slot params nump st).2.2 =
      [Action.logIdTooLarge slot, Action.freeDevId slot] ∧
    (i2c_gpio_custom_add_one env slot params nump st).2.1.installed = st.installed ∧
    (i2c_gpio_custom_add_one env slot params nump st).2.1.registered = st.registered ∧
    (i2c_gpio_custom_add_one env slot params nump st).2.1.devices = st.devices ∧
    (i2c_gpio_custom_add_one env slot params nump st).2.1.nr_devices = st.nr_devices ∧
    ((i2c_gpio_custom_add_one env slot params nump st).2.1.tables slot).dev_id =
      (st.tables slot).dev_id := by
  have hn3 : 3 ≤ nump := hn
  unfold i2c_gpio_custom_add_one
  dsimp only
  repeat' split
  all_goals first
  | (refine ⟨rfl, rfl, rfl, rfl, rfl, rfl, ?_⟩; simp [updTable])
  | (simp_all [BUS_PARAM_REQUIRED]; try omega)

/-- Witness for C8: the bus id 10^23 formats to 24 digits, so the identity
would need 33 characters and the IdentityTooLarge path is taken. -/
theorem identity_too_large_path_witness :
    (i2c_gpio_custom_add_one envOk 0 (fun i => [10 ^ 23, 5, 6].getD i 0) 3 initSt).1 =
      CRes.ret (-EINVAL) ∧
    (i2c_gpio_custom_add_one envOk 0 (fun i => [10 ^ 23, 5, 6].getD i 0) 3 initSt).2.2 =
      [Action.logIdTooLarge 0, Action.freeDevId 0] :=
  have h := identity_too_large_path envOk 0 (fun i => [10 ^ 23, 5, 6].getD i 0) 3 initSt
    chip0 chip0 (by decide) (by decide) (by decide) rfl (by decide)
  ⟨h.1, h.2.1⟩

/-- Counterexample to claim C6 as stated: the builder does mutate global
state before installation.  With line 5 resolvable and line 6 not, add_one on
the tuple 0,5,6 fails clock-line resolution, yet the data-line binding
written at lines 170-171 of the source persists in the static table of slot
0: a partial table is left behind (although nothing is installed). -/
theorem builder_partial_write_counterexample :
    (i2c_gpio_custom_add_one envSclBad 0 (fun i => [0, 5, 6].getD i 0) 3 initSt).1 =
      CRes.ret (-EINVAL) ∧
    ((i2c_gpio_custom_add_one envSclBad 0 (fun i => [0, 5, 6].getD i 0) 3
      initSt).2.1.tables 0).sda ≠ (initSt.tables 0).sda := by decide

/-- Claim C6 as amended: on a resolution failure the builder returns -EINVAL
logging the failing role and line number, installs nothing, allocates no
identity, and leaves the installed set, the device registry, the devices
array, the device counter and every table's dev_id unchanged, so no rollback
is needed; the static table's data-line entry, however, retains the written
binding when clock-line resolution fails after data-line resolution
succeeded. -/
theorem builder_failure_frame (env : Env) (slot : Nat) (params : Nat → Nat)
    (nump : Nat) (st : St) (hn : BUS_PARAM_REQUIRED ≤ nump) :
    (env.gpio_to_chip (params BUS_PARAM_SDA) = none →
      i2c_gpio_custom_add_one env slot params nump st =
        (CRes.ret (-EINVAL), st,
         [Action.logBadLine Role.sda (params BUS_PARAM_SDA) slot])) ∧
    (∀ c1, env.gpio_to_chip (params BUS_PARAM_SDA) = some c1 →
      env.gpio_to_chip (params BUS_PARAM_SCL) = none →
      (i2c_gpio_custom_add_one env slot params nump st).1 = CRes.ret (-EINVAL) ∧
      (i2c_gpio_custom_add_one env slot params nump st).2.2 =
        [Action.logBadLine Role.scl (params BUS_PARAM_SCL) slot] ∧
      (i2c_gpio_custom_add_one env slot params nump st).2.1.installed = st.installed ∧
      (i2c_gpio_custom_add_one env slot params nump st).2.1.registered = st.registered ∧
      (i2c_gpio_custom_add_one env slot params nump st).2.1.devices = st.devices ∧
      (i2c_gpio_custom_add_one env slot params nump st).2.1.nr_devices =
        st.nr_devices ∧
      (∀ i, ((i2c_gpio_custom_add_one env slot params nump st).2.1.tables i).dev_id =
        (st.tables i).dev_id)) := by
  have hn3 : 3 ≤ nump := hn
  constructor
  · intro hsda
    unfold i2c_gpio_custom_add_one
    dsimp only
    repeat' split
    all_goals simp_all [BUS_PARAM_REQUIRED]
    all_goals omega
  · intro c1 hsda hscl
    have he : i2c_gpio_custom_add_one env slot params nump st =
        (CRes.ret (-EINVAL),
         updTable st slot (fun t =>
           { t with sda := setEntry c1.label (params BUS_PARAM_SDA - c1.base) }),
         [Action.logBadLine Role.scl (params BUS_PARAM_SCL) slot]) := by
      unfold i2c_gpio_custom_add_one
      dsimp only
      repeat' split
      all_goals simp_all [BUS_PARAM_REQUIRED]
      all_goals omega
    rw [he]
    refine ⟨rfl, rfl, rfl, rfl, rfl, rfl, ?_⟩
    intro i
    unfold updTable
    dsimp only
    split
    · rename_i h; rw [h]
    · rfl

/-- Witness for the amended C6: with only line 5 resolvable, the tuple with
data line 99 fails immediately with no state change, and the tuple 0,5,6
fails on the clock line leaving everything but the scribbled entry
untouched. -/
theorem builder_failure_frame_witness :
    i2c_gpio_custom_add_one envSclBad 0 (fun i => [0, 99, 6].getD i 0) 3 initSt =
      (CRes.ret (-EINVAL), initSt, [Action.logBadLine Role.sda 99 0]) ∧
    (i2c_gpio_custom_add_one envSclBad 0 (fun i => [0, 5, 6].getD i 0) 3
      initSt).2.1.installed = initSt.installed :=
  ⟨(builder_failure_frame envSclBad 0 (fun i => [0, 99, 6].getD i 0) 3 initSt
      (by decide)).1 (by decide),
   ((builder_failure_frame envSclBad 0 (fun i => [0, 5, 6].getD i 0) 3 initSt
      (by decide)).2 chip0 (by decide) (by decide)).2.2.1⟩

/-- Counterexample to claim C3 as stated: teardown is not idempotent.  After
the successful one-bus pass of scenario A, a first cleanup tears everything
down, but a second cleanup call is not a no-op: because cleanup neither
clears the devices array nor resets nr_devices nor NULLs the freed dev_id
pointer, the second call again deletes and releases the stale device entry,
again removes lookup table 0 and again frees the identity string (a double
free). -/
theorem teardown_second_call_not_noop :
    (i2c_gpio_custom_cleanup
      (i2c_gpio_custom_cleanup
        (i2c_gpio_custom_probe envOk cfgA initSt).2.1).1).2 ≠ [] := by decide

/-- Claim C3 as amended: the second of two consecutive cleanup calls is a
no-op (same state, no kernel call) exactly when nothing was provisioned
(nr_devices = 0); the counterexample above shows it repeats the removals
whenever nr_devices is nonzero. -/
theorem teardown_noop_only_when_empty (st : St) (h : st.nr_devices = 0) :
    i2c_gpio_custom_cleanup ((i2c_gpio_custom_cleanup st).1) =
      ((i2c_gpio_custom_cleanup st).1, []) := by
  rw [cleanup_nr_zero st h]
  exact cleanup_nr_zero st h

/-- Witness for the amended C3: on the untouched initial state the second
cleanup call is a no-op. -/
theorem teardown_noop_only_when_empty_witness :
    i2c_gpio_custom_cleanup ((i2c_gpio_custom_cleanup initSt).1) =
      ((i2c_gpio_custom_cleanup initSt).1, []) :=
  teardown_noop_only_when_empty initSt rfl

/-- Claim C4 (code bug): cleanup walks gpiod_tables[0..nr_devices) although
the devices array is packed by success order while the tables are indexed by
bus slot.  With bus0 unset and bus1 = 1,5,6 successfully provisioned,
nr_devices is 1, the pass installed exactly table 1, yet cleanup removes
table 0 (never installed) and leaves table 1 installed: the set of tables it
uninstalls is not the set the pass installed, and the per-slot order
"remove the slot's device, then uninstall that same slot's table" is not
respected. -/
theorem cleanup_uninstalls_wrong_tables :
    (i2c_gpio_custom_probe envOk cfgGap initSt).2.1.installed = [1] ∧
    (i2c_gpio_custom_cleanup
      (i2c_gpio_custom_probe envOk cfgGap initSt).2.1).1.installed = [1] ∧
    Action.removeTable 0 ∈
      (i2c_gpio_custom_cleanup (i2c_gpio_custom_probe envOk cfgGap initSt).2.1).2 ∧
    Action.removeTable 1 ∉
      (i2c_gpio_custom_cleanup (i2c_gpio_custom_probe envOk cfgGap initSt).2.1).2 := by
  decide

/-- Claim C10 (code bug): the equality of provisioned count, live device
instances and installed binding tables holds after each provisioning step,
but not after teardown.  With bus0 unset and bus1 = 7,5,6, after the pass
all three counts are 1; after teardown the registry is empty but slot 1's
binding table is still installed (cleanup removed never-installed table 0
instead), so the counts disagree. -/
theorem provisioned_invariant_broken_after_teardown :
    (i2c_gpio_custom_probe envOk cfgGap2 initSt).2.1.nr_devices = 1 ∧
    (i2c_gpio_custom_probe envOk cfgGap2 initSt).2.1.registered.length = 1 ∧
    (i2c_gpio_custom_probe envOk cfgGap2 initSt).2.1.installed.length = 1 ∧
    (i2c_gpio_custom_cleanup
      (i2c_gpio_custom_probe envOk cfgGap2 initSt).2.1).1.registered.length = 0 ∧
    (i2c_gpio_custom_cleanup
      (i2c_gpio_custom_probe envOk cfgGap2 initSt).2.1).1.installed = [1] := by
  decide

/-- Claim C7 (code bug): the kmalloc at line 182 of the source is never
checked; when the allocation of the identity string fails the code passes the
NULL pointer straight to snprintf instead of returning -ENOMEM.  Evaluating
the model at a well-formed tuple in an environment whose kmalloc fails yields
the crash outcome, not an AllocationFailed error return. -/
theorem kmalloc_unchecked_crash :
    (i2c_gpio_custom_add_one envNoMem 0 (fun i => [0, 5, 6].getD i 0) 3 initSt).1 =
      CRes.crash := by decide

/-- Counterexample to claim C9 as stated: the pass does not return the count
of provisioned buses.  On scenario A (one configured slot, which provisions
successfully) probe returns 0, the C success code, while the count — held in
nr_devices — is 1; the return value is not 1. -/
theorem probe_returns_zero_not_count :
    (i2c_gpio_custom_probe envOk cfgA initSt).1 = CRes.ret 0 ∧
    (i2c_gpio_custom_probe envOk cfgA initSt).2.1.nr_devices = 1 ∧
    (i2c_gpio_custom_probe envOk cfgA initSt).1 ≠ CRes.ret 1 := by decide

/-- The number of configured slots: those whose supplied parameter count is
nonzero (the slots i2c_gpio_custom_add_one does not skip). -/
def configuredCount (cfg : Config) : Nat :=
  (if cfg.nump 0 = 0 then 0 else 1) + (if cfg.nump 1 = 0 then 0 else 1) +
  (if cfg.nump 2 = 0 then 0 else 1) + (if cfg.nump 3 = 0 then 0 else 1)

/-- Trichotomy on an add_one call: it is a skip (zero fields, state returned
unchanged), or it does not return 0, or it is a full success on a configured
slot and the device counter was incremented by exactly one (every error path
returns a nonzero code or crashes). -/
lemma add_one_result_cases (env : Env) (id : Nat) (params : Nat → Nat) (nump : Nat)
    (st : St) :
    (nump = 0 ∧ i2c_gpio_custom_add_one env id params nump st = (CRes.ret 0, st, [])) ∨
    (i2c_gpio_custom_add_one env id params nump st).1 ≠ CRes.ret 0 ∨
    (nump ≠ 0 ∧ (i2c_gpio_custom_add_one env id params nump st).2.1.nr_devices =
      st.nr_devices + 1) := by
  by_cases hz : nump = 0
  · exact Or.inl ⟨hz, by subst hz; rfl⟩
  · right
    unfold i2c_gpio_custom_add_one
    dsimp only
    repeat' split
    all_goals first
    | (right; exact ⟨hz, rfl⟩)
    | (left; simp_all)

/-- A slot whose add_one call returns 0 leaves the device counter unchanged
when it was skipped and increments it by exactly one when it was configured. -/
lemma add_one_ret_zero_nr (env : Env) (id : Nat) (params : Nat → Nat) (nump : Nat)
    (st : St) (h : (i2c_gpio_custom_add_one env id params nump st).1 = CRes.ret 0) :
    (i2c_gpio_custom_add_one env id params nump st).2.1.nr_devices =
      st.nr_devices + (if nump = 0 then 0 else 1) := by
  rcases add_one_result_cases env id params nump st with ⟨hz, he⟩ | hne | ⟨hz, hnr⟩
  · rw [he]
    simp [hz]
  · exact absurd h hne
  · rw [hnr, if_neg hz]

/-- Claim C9 as amended: for every configuration whose slots all return 0
(each slot skipped or provisioned successfully): if every slot is skipped the
pass returns -ENODEV (NoDevicesConfigured); otherwise it returns 0 — the
success code, not the count — and the count of provisioned buses is recorded
in the nr_devices counter. -/
theorem probe_return_value_spec (env : Env) (cfg : Config)
    (h : ∀ i, i < 4 → resAt env cfg i = CRes.ret 0) :
    (configuredCount cfg = 0 →
      i2c_gpio_custom_probe env cfg initSt =
        (CRes.ret (-ENODEV), initSt, [Action.logVersion, Action.logNoBuses])) ∧
    (configuredCount cfg ≠ 0 →
      (i2c_gpio_custom_probe env cfg initSt).1 = CRes.ret 0 ∧
      (i2c_gpio_custom_probe env cfg initSt).2.1.nr_devices = configuredCount cfg) := by
  constructor
  · intro hz
    have h0 : cfg.nump 0 = 0 := by
      by_contra hx
      have hz2 := hz
      unfold configuredCount at hz2
      rw [if_neg hx] at hz2
      omega
    have h1 : cfg.nump 1 = 0 := by
      by_contra hx
      have hz2 := hz
      unfold configuredCount at hz2
      rw [if_neg hx] at hz2
      omega
    have h2 : cfg.nump 2 = 0 := by
      by_contra hx
      have hz2 := hz
      unfold configuredCount at hz2
      rw [if_neg hx] at hz2
      omega
    have h3 : cfg.nump 3 = 0 := by
      by_contra hx
      have hz2 := hz
      unfold configuredCount at hz2
      rw [if_neg hx] at hz2
      omega
    have e0 : ∀ S : St, i2c_gpio_custom_add_one env 0 (cfg.bus 0) (cfg.nump 0) S =
        (CRes.ret 0, S, []) := fun S => by rw [h0]; exact add_one_skip env 0 (cfg.bus 0) S
    have e1 : ∀ S : St, i2c_gpio_custom_add_one env 1 (cfg.bus 1) (cfg.nump 1) S =
        (CRes.ret 0, S, []) := fun S => by rw [h1]; exact add_one_skip env 1 (cfg.bus 1) S
    have e2 : ∀ S : St, i2c_gpio_custom_add_one env 2 (cfg.bus 2) (cfg.nump 2) S =
        (CRes.ret 0, S, []) := fun S => by rw [h2]; exact add_one_skip env 2 (cfg.bus 2) S
    have e3 : ∀ S : St, i2c_gpio_custom_add_one env 3 (cfg.bus 3) (cfg.nump 3) S =
        (CRes.ret 0, S, []) := fun S => by rw [h3]; exact add_one_skip env 3 (cfg.bus 3) S
    have hc : i2c_gpio_custom_cleanup initSt = (initSt, []) := cleanup_nr_zero initSt rfl
    have hnr : initSt.nr_devices = 0 := rfl
    simp [i2c_gpio_custom_probe, probeLoop, e0, e1, e2, e3, hc, hnr]
  · intro hz
    rcases hA : i2c_gpio_custom_add_one env 0 (cfg.bus 0) (cfg.nump 0) initSt
      with ⟨r1, S1, T1⟩
    have g0 : (i2c_gpio_custom_add_one env 0 (cfg.bus 0) (cfg.nump 0) initSt).1 =
        CRes.ret 0 := h 0 (by omega)
    rw [hA] at g0
    have fr1 : r1 = CRes.ret 0 := g0
    subst fr1
    have n1 : S1.nr_devices =
        initSt.nr_devices + (if cfg.nump 0 = 0 then 0 else 1) := by
      have hx := add_one_ret_zero_nr env 0 (cfg.bus 0) (cfg.nump 0) initSt (by rw [hA])
      rw [hA] at hx
      exact hx
    have g1 : (i2c_gpio_custom_add_one env 1 (cfg.bus 1) (cfg.nump 1)
        ((i2c_gpio_custom_add_one env 0 (cfg.bus 0) (cfg.nump 0) initSt).2.1)).1 =
        CRes.ret 0 := h 1 (by omega)
    rw [hA] at g1
    have g1h : (i2c_gpio_custom_add_one env 1 (cfg.bus 1) (cfg.nump 1) S1).1 =
        CRes.ret 0 := g1
    rcases hB : i2c_gpio_custom_add_one env 1 (cfg.bus 1) (cfg.nump 1) S1
      with ⟨r2, S2, T2⟩
    rw [hB] at g1h
    have fr2 : r2 = CRes.ret 0 := g1h
    subst fr2
    have n2 : S2.nr_devices =
        S1.nr_devices + (if cfg.nump 1 = 0 then 0 else 1) := by
      have hx := add_one_ret_zero_nr env 1 (cfg.bus 1) (cfg.nump 1) S1 (by rw [hB])
      rw [hB] at hx
      exact hx
    have g2 : (i2c_gpio_custom_add_one env 2 (cfg.bus 2) (cfg.nump 2)
        ((i2c_gpio_custom_add_one env 1 (cfg.bus 1) (cfg.nump 1)
          ((i2c_gpio_custom_add_one env 0 (cfg.bus 0) (cfg.nump 0)
            initSt).2.1)).2.1)).1 = CRes.ret 0 := h 2 (by omega)
    rw [hA] at g2
    have g2a : (i2c_gpio_custom_add_one env 2 (cfg.bus 2) (cfg.nump 2)
        ((i2c_gpio_custom_add_one env 1 (cfg.bus 1) (cfg.nump 1) S1).2.1)).1 =
        CRes.ret 0 := g2
    rw [hB] at g2a
    have g2h : (i2c_gpio_custom_add_one env 2 (cfg.bus 2) (cfg.nump 2) S2).1 =
        CRes.ret 0 := g2a
    rcases hC : i2c_gpio_custom_add_one env 2 (cfg.bus 2) (cfg.nump 2) S2
      with ⟨r3, S3, T3⟩
    rw [hC] at g2h
    have fr3 : r3 = CRes.ret 0 := g2h
    subst fr3
    have n3 : S3.nr_devices =
        S2.nr_devices + (if cfg.nump 2 = 0 then 0 else 1) := by
      have hx := add_one_ret_zero_nr env 2 (cfg.bus 2) (cfg.nump 2) S2 (by rw [hC])
      rw [hC] at hx
      exact hx
    have g3 : (i2c_gpio_custom_add_one env 3 (cfg.bus 3) (cfg.nump 3)
        ((i2c_gpio_custom_add_one env 2 (cfg.bus 2) (cfg.nump 2)
          ((i2c_gpio_custom_add_one env 1 (cfg.bus 1) (cfg.nump 1)
            ((i2c_gpio_custom_add_one env 0 (cfg.bus 0) (cfg.nump 0)
              initSt).2.1)).2.1)).2.1)).1 = CRes.ret 0 := h 3 (by omega)
    rw [hA] at g3
    have g3a : (i2c_gpio_custom_add_one env 3 (cfg.bus 3) (cfg.nump 3)
        ((i2c_gpio_custom_add_one env 2 (cfg.bus 2) (cfg.nump 2)
          ((i2c_gpio_custom_add_one env 1 (cfg.bus 1) (cfg.nump 1) S1).2.1)).2.1)).1 =
        CRes.ret 0 := g3
    rw [hB] at g3a
    have g3b : (i2c_gpio_custom_add_one env 3 (cfg.bus 3) (cfg.nump 3)
        ((i2c_gpio_custom_add_one env 2 (cfg.bus 2) (cfg.nump 2) S2).2.1)).1 =
        CRes.ret 0 := g3a
    rw [hC] at g3b
    have g3h : (i2c_gpio_custom_add_one env 3 (cfg.bus 3) (cfg.nump 3) S3).1 =
        CRes.ret 0 := g3b
    rcases hD : i2c_gpio_custom_add_one env 3 (cfg.bus 3) (cfg.nump 3) S3
      with ⟨r4, S4, T4⟩
    rw [hD] at g3h
    have fr4 : r4 = CRes.ret 0 := g3h
    subst fr4
    have n4 : S4.nr_devices =
        S3.nr_devices + (if cfg.nump 3 = 0 then 0 else 1) := by
      have hx := add_one_ret_zero_nr env 3 (cfg.bus 3) (cfg.nump 3) S3 (by rw [hD])
      rw [hD] at hx
      exact hx
    have hnr0 : initSt.nr_devices = 0 := rfl
    have hnr4 : S4.nr_devices = configuredCount cfg := by
      rw [n4, n3, n2, n1, hnr0]
      unfold configuredCount
      omega
    simp only [i2c_gpio_custom_probe, probeLoop, hA, hB, hC, hD]
    simp [hnr4, hz]

/-- Witness for the amended C9: the empty configuration returns -ENODEV, and
a configuration with buses in slots 0 and 2 (slot 1 and 3 skipped) returns 0
with two provisioned buses counted in nr_devices. -/
theorem probe_return_value_spec_witness :
    i2c_gpio_custom_probe envOk (mkConfig [] [] [] []) initSt =
      (CRes.ret (-ENODEV), initSt, [Action.logVersion, Action.logNoBuses]) ∧
    (i2c_gpio_custom_probe envOk (mkConfig [3, 5, 6] [] [4, 7, 8] []) initSt).1 =
      CRes.ret 0 ∧
    (i2c_gpio_custom_probe envOk (mkConfig [3, 5, 6] [] [4, 7, 8] [])
      initSt).2.1.nr_devices = 2 :=
  ⟨(probe_return_value_spec envOk (mkConfig [] [] [] [])
      (by decide)).1 (by decide),
   (probe_return_value_spec envOk (mkConfig [3, 5, 6] [] [4, 7, 8] [])
      (by decide)).2 (by decide)⟩

/-- Claim C2: if the slots before `j` all succeed or are skipped (return 0)
and slot `j` is the first to fail, with error `e`, then probe returns exactly
`e` and — because it immediately runs the global cleanup, whose first loop
deletes every packed devices entry — zero device instances remain
registered. -/
theorem probe_first_error_teardown (env : Env) (cfg : Config) (j : Nat) (e : Int)
    (hj : j < 4)
    (hpre : ∀ i, i < j → resAt env cfg i = CRes.ret 0)
    (hfail : resAt env cfg j = CRes.ret e)
    (he : e ≠ 0) :
    (i2c_gpio_custom_probe env cfg initSt).1 = CRes.ret e ∧
    (i2c_gpio_custom_probe env cfg initSt).2.1.registered = [] := by
  interval_cases j
  · rcases hA : i2c_gpio_custom_add_one env 0 (cfg.bus 0) (cfg.nump 0) initSt
      with ⟨r1, S1, T1⟩
    have f0 : (i2c_gpio_custom_add_one env 0 (cfg.bus 0) (cfg.nump 0) initSt).1 =
        CRes.ret e := hfail
    rw [hA] at f0
    have fr : r1 = CRes.ret e := f0
    subst fr
    have inv1 : Inv S1 := by
      have hi := add_one_preserves_Inv env 0 (cfg.bus 0) (cfg.nump 0) initSt Inv_initSt
      rw [hA] at hi
      exact hi
    simp only [i2c_gpio_custom_probe, probeLoop, hA]
    simp [he, cleanup_registered S1 inv1]
  · rcases hA : i2c_gpio_custom_add_one env 0 (cfg.bus 0) (cfg.nump 0) initSt
      with ⟨r1, S1, T1⟩
    have s0 : (i2c_gpio_custom_add_one env 0 (cfg.bus 0) (cfg.nump 0) initSt).1 =
        CRes.ret 0 := hpre 0 (by omega)
    rw [hA] at s0
    have fr1 : r1 = CRes.ret 0 := s0
    subst fr1
    have inv1 : Inv S1 := by
      have hi := add_one_preserves_Inv env 0 (cfg.bus 0) (cfg.nump 0) initSt Inv_initSt
      rw [hA] at hi
      exact hi
    have f1 : (i2c_gpio_custom_add_one env 1 (cfg.bus 1) (cfg.nump 1)
        ((i2c_gpio_custom_add_one env 0 (cfg.bus 0) (cfg.nump 0) initSt).2.1)).1 =
        CRes.ret e := hfail
    rw [hA] at f1
    have f1h : (i2c_gpio_custom_add_one env 1 (cfg.bus 1) (cfg.nump 1) S1).1 =
        CRes.ret e := f1
    rcases hB : i2c_gpio_custom_add_one env 1 (cfg.bus 1) (cfg.nump 1) S1
      with ⟨r2, S2, T2⟩
    rw [hB] at f1h
    have fr2 : r2 = CRes.ret e := f1h
    subst fr2
    have inv2 : Inv S2 := by
      have hi := add_one_preserves_Inv env 1 (cfg.bus 1) (cfg.nump 1) S1 inv1
      rw [hB] at hi
      exact hi
    simp only [i2c_gpio_custom_probe, probeLoop, hA, hB]
    simp [hB, he, cleanup_registered S2 inv2]
  · rcases hA : i2c_gpio_custom_add_one env 0 (cfg.bus 0) (cfg.nump 0) initSt
      with ⟨r1, S1, T1⟩
    have s0 : (i2c_gpio_custom_add_one env 0 (cfg.bus 0) (cfg.nump 0) initSt).1 =
        CRes.ret 0 := hpre 0 (by omega)
    rw [hA] at s0
    have fr1 : r1 = CRes.ret 0 := s0
    subst fr1
    have inv1 : Inv S1 := by
      have hi := add_one_preserves_Inv env 0 (cfg.bus 0) (cfg.nump 0) initSt Inv_initSt
      rw [hA] at hi
      exact hi
    have s1 : (i2c_gpio_custom_add_one env 1 (cfg.bus 1) (cfg.nump 1)
        ((i2c_gpio_custom_add_one env 0 (cfg.bus 0) (cfg.nump 0) initSt).2.1)).1 =
        CRes.ret 0 := hpre 1 (by omega)
    rw [hA] at s1
    have s1h : (i2c_gpio_custom_add_one env 1 (cfg.bus 1) (cfg.nump 1) S1).1 =
        CRes.ret 0 := s1
    rcases hB : i2c_gpio_custom_add_one env 1 (cfg.bus 1) (cfg.nump 1) S1
      with ⟨r2, S2, T2⟩
    rw [hB] at s1h
    have fr2 : r2 = CRes.ret 0 := s1h
    subst fr2
    have inv2 : Inv S2 := by
      have hi := add_one_preserves_Inv env 1 (cfg.bus 1) (cfg.nump 1) S1 inv1
      rw [hB] at hi
      exact hi
    have f2 : (i2c_gpio_custom_add_one env 2 (cfg.bus 2) (cfg.nump 2)
        ((i2c_gpio_custom_add_one env 1 (cfg.bus 1) (cfg.nump 1)
          ((i2c_gpio_custom_add_one env 0 (cfg.bus 0) (cfg.nump 0)
            initSt).2.1)).2.1)).1 = CRes.ret e := hfail
    rw [hA] at f2
    have f2a : (i2c_gpio_custom_add_one env 2 (cfg.bus 2) (cfg.nump 2)
        ((i2c_gpio_custom_add_one env 1 (cfg.bus 1) (cfg.nump 1) S1).2.1)).1 =
        CRes.ret e := f2
    rw [hB] at f2a
    have f2h : (i2c_gpio_custom_add_one env 2 (cfg.bus 2) (cfg.nump 2) S2).1 =
        CRes.ret e := f2a
    rcases hC : i2c_gpio_custom_add_one env 2 (cfg.bus 2) (cfg.nump 2) S2
      with ⟨r3, S3, T3⟩
    rw [hC] at f2h
    have fr3 : r3 = CRes.ret e := f2h
    subst fr3
    have inv3 : Inv S3 := by
      have hi := add_one_preserves_Inv env 2 (cfg.bus 2) (cfg.nump 2) S2 inv2
      rw [hC] at hi
      exact hi
    simp only [i2c_gpio_custom_probe, probeLoop, hA, hB, hC]
    simp [hB, hC, he, cleanup_registered S3 inv3]
  · rcases hA : i2c_gpio_custom_add_one env 0 (cfg.bus 0) (cfg.nump 0) initSt
      with ⟨r1, S1, T1⟩
    have s0 : (i2c_gpio_custom_add_one env 0 (cfg.bus 0) (cfg.nump 0) initSt).1 =
        CRes.ret 0 := hpre 0 (by omega)
    rw [hA] at s0
    have fr1 : r1 = CRes.ret 0 := s0
    subst fr1
    have inv1 : Inv S1 := by
      have hi := add_one_preserves_Inv env 0 (cfg.bus 0) (cfg.nump 0) initSt Inv_initSt
      rw [hA] at hi
      exact hi
    have s1 : (i2c_gpio_custom_add_one env 1 (cfg.bus 1) (cfg.nump 1)
        ((i2c_gpio_custom_add_one env 0 (cfg.bus 0) (cfg.nump 0) initSt).2.1)).1 =
        CRes.ret 0 := hpre 1 (by omega)
    rw [hA] at s1
    have s1h : (i2c_gpio_custom_add_one env 1 (cfg.bus 1) (cfg.nump 1) S1).1 =
        CRes.ret 0 := s1
    rcases hB : i2c_gpio_custom_add_one env 1 (cfg.bus 1) (cfg.nump 1) S1
      with ⟨r2, S2, T2⟩
    rw [hB] at s1h
    have fr2 : r2 = CRes.ret 0 := s1h
    subst fr2
    have inv2 : Inv S2 := by
      have hi := add_one_preserves_Inv env 1 (cfg.bus 1) (cfg.nump 1) S1 inv1
      rw [hB] at hi
      exact hi
    have s2 : (i2c_gpio_custom_add_one env 2 (cfg.bus 2) (cfg.nump 2)
        ((i2c_gpio_custom_add_one env 1 (cfg.bus 1) (cfg.nump 1)
          ((i2c_gpio_custom_add_one env 0 (cfg.bus 0) (cfg.nump 0)
            initSt).2.1)).2.1)).1 = CRes.ret 0 := hpre 2 (by omega)
    rw [hA] at s2
    have s2a : (i2c_gpio_custom_add_one env 2 (cfg.bus 2) (cfg.nump 2)
        ((i2c_gpio_custom_add_one env 1 (cfg.bus 1) (cfg.nump 1) S1).2.1)).1 =
        CRes.ret 0 := s2
    rw [hB] at s2a
    have s2h : (i2c_gpio_custom_add_one env 2 (cfg.bus 2) (cfg.nump 2) S2).1 =
        CRes.ret 0 := s2a
    rcases hC : i2c_gpio_custom_add_one env 2 (cfg.bus 2) (cfg.nump 2) S2
      with ⟨r3, S3, T3⟩
    rw [hC] at s2h
    have fr3 : r3 = CRes.ret 0 := s2h
    subst fr3
    have inv3 : Inv S3 := by
      have hi := add_one_preserves_Inv env 2 (cfg.bus 2) (cfg.nump 2) S2 inv2
      rw [hC] at hi
      exact hi
    have f3 : (i2c_gpio_custom_add_one env 3 (cfg.bus 3) (cfg.nump 3)
        ((i2c_gpio_custom_add_one env 2 (cfg.bus 2) (cfg.nump 2)
          ((i2c_gpio_custom_add_one env 1 (cfg.bus 1) (cfg.nump 1)
            ((i2c_gpio_custom_add_one env 0 (cfg.bus 0) (cfg.nump 0)
              initSt).2.1)).2.1)).2.1)).1 = CRes.ret e := hfail
    rw [hA] at f3
    have f3a : (i2c_gpio_custom_add_one env 3 (cfg.bus 3) (cfg.nump 3)
        ((i2c_gpio_custom_add_one env 2 (cfg.bus 2) (cfg.nump 2)
          ((i2c_gpio_custom_add_one env 1 (cfg.bus 1) (cfg.nump 1) S1).2.1)).2.1)).1 =
        CRes.ret e := f3
    rw [hB] at f3a
    have f3b : (i2c_gpio_custom_add_one env 3 (cfg.bus 3) (cfg.nump 3)
        ((i2c_gpio_custom_add_one env 2 (cfg.bus 2) (cfg.nump 2) S2).2.1)).1 =
        CRes.ret e := f3a
    rw [hC] at f3b
    have f3h : (i2c_gpio_custom_add_one env 3 (cfg.bus 3) (cfg.nump 3) S3).1 =
        CRes.ret e := f3b
    rcases hD : i2c_gpio_custom_add_one env 3 (cfg.bus 3) (cfg.nump 3) S3
      with ⟨r4, S4, T4⟩
    rw [hD] at f3h
    have fr4 : r4 = CRes.ret e := f3h
    subst fr4
    have inv4 : Inv S4 := by
      have hi := add_one_preserves_Inv env 3 (cfg.bus 3) (cfg.nump 3) S3 inv3
      rw [hD] at hi
      exact hi
    simp only [i2c_gpio_custom_probe, probeLoop, hA, hB, hC, hD]
    simp [hB, hC, hD, he, cleanup_registered S4 inv4]

/-- Witness for C2: with the data line of bus0 unresolvable, the first slot
fails with -EINVAL; probe returns -EINVAL and no device instance remains
registered. -/
theorem probe_first_error_teardown_witness :
    (i2c_gpio_custom_probe envOk cfgBadLine initSt).1 = CRes.ret (-EINVAL) ∧
    (i2c_gpio_custom_probe envOk cfgBadLine initSt).2.1.registered = [] :=
  probe_first_error_teardown envOk cfgBadLine 0 (-EINVAL) (by omega)
    (fun i hi => absurd hi (by omega)) (by decide) (by decide)

end I2CGpioCustom
